import Mathlib

/-!
Verification development for the Auto_DCA_bot repository.

Shallow embedding of the order-execution state machine and the
fund-transfer sequencer:

* `autoSendUsdt` / `autoSendBody` embed `auto_send.py:auto_send_usdt`
  (together with the call interface of `wallet.py:load_keystore` and the
  broadcast behaviour of `erc20.py:approve_usdt` / `transfer_usdt`);
* `processDuePlan` embeds the per-plan body of `bot.py:dca_scheduler`
  (lines 521-886);
* `manualExecute` embeds the per-plan part of `bot.py:cmd_execute`
  (lines 1228-1459);
* `cmdDelete` and `cmdSetdcaDb` embed `bot.py:cmd_delete` (lines 1739-1798)
  and the persistence part of `bot.py:cmd_setdca` (lines 2145-2257).

Modelling conventions: Python floats carrying token amounts are modelled
as `ℚ` (the claims under check are about control flow and comparisons, not
float rounding); UNIX timestamps are `Int`; external calls (exchange API,
RPC, keyring, sqlite row contents) are oracle inputs collected in
environment structures, while the decisions the program makes from them
are translated from the source.  Human-readable message strings keep the
fragments the code interpolates (error texts, which the classifier matches
on) and elide fixed numeric pretty-printing.
-/

namespace AutoDCA

/-- ASCII lowercasing, modelling Python `str.lower` on the ASCII texts the
classifier compares (`Char.toLower` lowercases ASCII only; every keyword in
the transient-indicator set is ASCII). -/
def pyLower (s : String) : String := String.mk (s.data.map Char.toLower)

/-- Python slice `s[:n]`, truncation to at most `n` characters. -/
def pyTake (s : String) (n : Nat) : String := String.mk (s.data.take n)

/-- Python `pat in s` substring membership. -/
def strContains (s pat : String) : Bool := decide (pat.toList <:+: s.toList)

/-- Transient-indicator keyword set from src/bot.py lines 707-708 and 795-796. -/
def transientKeywords : List String :=
  ["timeout", "connection", "rpc", "5xx", "unavailable", "failed to connect"]

/-- Retryable-error classifier:
`any(keyword in error_str.lower() for keyword in [...])` (src/bot.py 707-708, 795-796). -/
def isRetryable (e : String) : Bool :=
  transientKeywords.any fun k => strContains (pyLower e) k

/-- Check for the "network unavailable" kind of limits error
(src/bot.py line 608): `"недоступна" in error_msg.lower() or "311" in error_msg
or "312" in error_msg`. -/
def limitsUnavailable (msg : String) : Bool :=
  strContains (pyLower msg) "недоступна" || strContains msg "311" || strContains msg "312"

/-! ### Fund-transfer sequencer: src/auto_send.py -/

/-- Chain-level operations performed by the sequencer, recorded in order.
`approveAttempt`/`transferAttempt` mark an invocation of
`erc20.approve_usdt` / `erc20.transfer_usdt` with `dry_run = False`
(sign-and-broadcast); `approveAwait`/`transferAwait` mark
`wait_for_transaction_receipt` on the returned hash. -/
inductive ChainAction where
  | approveAttempt (spender : String) (amount : ℚ)
  | approveAwait (txHash : String)
  | transferAttempt (toAddr : String) (amount : ℚ)
  | transferAwait (txHash : String)
deriving DecidableEq, Repr

def ChainAction.isApproveAttempt : ChainAction → Bool
  | .approveAttempt _ _ => true
  | _ => false

def ChainAction.isTransferAttempt : ChainAction → Bool
  | .transferAttempt _ _ => true
  | _ => false

/-- Result of one invocation of `auto_send_usdt`: the returned 4-tuple
`(success, approve_tx_hash, transfer_tx_hash, error_message)` plus the
recorded chain actions, whether the private key was decrypted on this run
(line 77 executed successfully), and whether the scrub statements
`private_key = None; del private_key` (lines 234-235) executed. -/
structure SendResult where
  success : Bool
  approveTx : Option String
  transferTx : Option String
  errorMessage : String
  actions : List ChainAction
  keyCreated : Bool
  keyScrubbed : Bool
deriving DecidableEq, Repr

/-- External-world responses observed by one invocation of the sequencer.
`Except.error` models the corresponding Python call raising. -/
structure SendEnv where
  /-- `load_keystore(user_id)` would return a keystore (file exists and parses). -/
  keystorePresent : Bool
  /-- `decrypt_private_key(keystore, wallet_password)`: key hex or ValueError text. -/
  decryptResult : Except String String
  /-- `Web3.to_checksum_address(deposit_address)`. -/
  checksumResult : Except String String
  /-- `(get_usdt_balance, get_native_balance)` in token / ether units. -/
  balanceResult : Except String (ℚ × ℚ)
  /-- `(estimate_gas_for_approve, estimate_gas_for_transfer, w3.eth.gas_price)`,
  gas in units, gas price in wei. -/
  gasResult : Except String (Nat × Nat × ℚ)
  /-- `check_allowance(...)` in token units. -/
  allowanceResult : Except String ℚ
  /-- `approve_usdt(...)` with `dry_run = False`: raise, `None`, or a tx hash. -/
  approveCall : Except String (Option String)
  /-- `wait_for_transaction_receipt(approve_tx_hash)`: raise or receipt status. -/
  approveReceipt : Except String Nat
  /-- `transfer_usdt(...)` with `dry_run = False`. -/
  transferCall : Except String (Option String)
  /-- `wait_for_transaction_receipt(transfer_tx_hash)`. -/
  transferReceipt : Except String Nat
deriving Repr

/-- Python positional-argument values, used to model call-arity semantics. -/
inductive PyArg where
  | intArg (n : Int)
  | strArg (s : String)
deriving DecidableEq, Repr

/-- `wallet.load_keystore` is declared with exactly one parameter
(src/wallet.py line 61: `def load_keystore(user_id: int)`). -/
def loadKeystoreParamCount : Nat := 1

/-- Calling `load_keystore` with a positional argument list: Python raises
`TypeError` when the arity does not match the declaration; on a matching
call it returns the optional keystore. -/
def callLoadKeystore (env : SendEnv) (args : List PyArg) : Except String Bool :=
  if args.length = loadKeystoreParamCount then
    .ok env.keystorePresent
  else
    .error ("load_keystore() takes " ++ toString loadKeystoreParamCount ++
      " positional argument but " ++ toString args.length ++ " were given")

/-- Native-balance threshold from src/auto_send.py lines 138-145:
`total_gas * gas_price * GAS_PRICE_MULTIPLIER` (1.2) converted from wei to
ether, times `MIN_NATIVE_MULTIPLIER` (1.5). -/
def minNativeRequired (approveGas transferGas : Nat) (gasPrice : ℚ) : ℚ :=
  ((approveGas : ℚ) + (transferGas : ℚ)) * gasPrice * (6 / 5) / 10 ^ 18 * (3 / 2)

/-- Approval step of the sequencer (src/auto_send.py lines 173-205), entered
with the checksummed deposit address.  Returns either an early-return
`SendResult` or the approve hash to carry into the transfer step together
with the chain actions so far.  With `dry_run = True`, `approve_usdt`
returns `None` without broadcasting (src/erc20.py lines 263-273) and the
receipt wait is skipped. -/
def approvePhase (env : SendEnv) (requiredAmount : ℚ) (depositChecksum : String)
    (dryRun : Bool) (currentAllowance : ℚ) :
    SendResult ⊕ (Option String × List ChainAction) :=
  if currentAllowance < requiredAmount then
    if dryRun then
      Sum.inr (none, [])
    else
      match env.approveCall with
      | .error e =>
          Sum.inl ⟨false, none, none, "Approve failed: " ++ e,
            [.approveAttempt depositChecksum requiredAmount], true, false⟩
      | .ok none =>
          Sum.inl ⟨false, none, none, "Approve transaction failed",
            [.approveAttempt depositChecksum requiredAmount], true, false⟩
      | .ok (some h) =>
          match env.approveReceipt with
          | .error e =>
              Sum.inl ⟨false, none, none, "Approve failed: " ++ e,
                [.approveAttempt depositChecksum requiredAmount, .approveAwait h], true, false⟩
          | .ok status =>
              if status ≠ 1 then
                Sum.inl ⟨false, some h, none, "Approve transaction failed",
                  [.approveAttempt depositChecksum requiredAmount, .approveAwait h], true, false⟩
              else
                Sum.inr (some h,
                  [.approveAttempt depositChecksum requiredAmount, .approveAwait h])
  else
    Sum.inr (none, [])

/-- Transfer step of the sequencer (src/auto_send.py lines 207-241).  The
scrub statements (lines 233-235) execute only on the confirmed-transfer
return path. -/
def transferPhase (env : SendEnv) (requiredAmount : ℚ) (depositChecksum : String)
    (dryRun : Bool) (approveTx : Option String) (acts : List ChainAction) : SendResult :=
  if dryRun then
    ⟨true, approveTx, none, "DRY RUN: Would transfer USDT", acts, true, false⟩
  else
    match env.transferCall with
    | .error e =>
        ⟨false, approveTx, none, "Transfer failed: " ++ e,
          acts ++ [.transferAttempt depositChecksum requiredAmount], true, false⟩
    | .ok none =>
        ⟨false, approveTx, none, "Transfer transaction failed",
          acts ++ [.transferAttempt depositChecksum requiredAmount], true, false⟩
    | .ok (some th) =>
        match env.transferReceipt with
        | .error e =>
            ⟨false, approveTx, none, "Transfer failed: " ++ e,
              acts ++ [.transferAttempt depositChecksum requiredAmount, .transferAwait th],
              true, false⟩
        | .ok status =>
            if status ≠ 1 then
              ⟨false, approveTx, some th, "Transfer transaction failed",
                acts ++ [.transferAttempt depositChecksum requiredAmount, .transferAwait th],
                true, false⟩
            else
              ⟨true, approveTx, some th, "",
                acts ++ [.transferAttempt depositChecksum requiredAmount, .transferAwait th],
                true, true⟩

/-- Body of `auto_send_usdt` after the keystore was loaded
(src/auto_send.py lines 75-241): decrypt, validate, balance checks, gas
check, allowance check, approve phase, transfer phase.  An exception from
`check_allowance` (line 177, outside every inner try) reaches the outermost
handler and yields the "Unexpected error" return. -/
def autoSendBody (env : SendEnv) (requiredAmount : ℚ) (_depositAddress : String)
    (dryRun : Bool) : SendResult :=
  match env.decryptResult with
  | .error e => ⟨false, none, none, "Incorrect wallet password: " ++ e, [], false, false⟩
  | .ok _privateKey =>
    match env.checksumResult with
    | .error e =>
        ⟨false, none, none, "Invalid deposit address format: " ++ e, [], true, false⟩
    | .ok depositChecksum =>
      match env.balanceResult with
      | .error e => ⟨false, none, none, "Failed to check balances: " ++ e, [], true, false⟩
      | .ok (usdtBalance, nativeBalance) =>
        if usdtBalance < requiredAmount then
          ⟨false, none, none, "Insufficient USDT balance.", [], true, false⟩
        else
          match env.gasResult with
          | .error e => ⟨false, none, none, "Failed to estimate gas: " ++ e, [], true, false⟩
          | .ok (approveGas, transferGas, gasPrice) =>
            if nativeBalance < minNativeRequired approveGas transferGas gasPrice then
              ⟨false, none, none, "Insufficient native balance for gas.", [], true, false⟩
            else
              match env.allowanceResult with
              | .error e => ⟨false, none, none, "Unexpected error: " ++ e, [], true, false⟩
              | .ok currentAllowance =>
                match approvePhase env requiredAmount depositChecksum dryRun
                    currentAllowance with
                | Sum.inl r => r
                | Sum.inr (approveTx, acts) =>
                    transferPhase env requiredAmount depositChecksum dryRun approveTx acts

/-- Embedding of `auto_send_usdt` (src/auto_send.py lines 31-245).  Its first
statement (line 71) calls `load_keystore(user_id, network_key)` with two
positional arguments; the raised `TypeError` is caught by the outermost
handler (lines 243-245). -/
def autoSendUsdt (env : SendEnv) (userId : Int) (networkKey : String)
    (requiredAmount : ℚ) (depositAddress : String) (dryRun : Bool) : SendResult :=
  match callLoadKeystore env [.intArg userId, .strArg networkKey] with
  | .error e => ⟨false, none, none, "Unexpected error: " ++ e, [], false, false⟩
  | .ok false =>
      ⟨false, none, none,
        "Wallet not configured for " ++ networkKey ++ ". Use /setwallet to configure.",
        [], false, false⟩
  | .ok true => autoSendBody env requiredAmount depositAddress dryRun

/-! ### Data model: dca_plans and sent_transactions (src/bot.py init_db) -/

/-- States of a `sent_transactions` row (column `state`, default `'scheduled'`). -/
inductive TxState where
  | scheduled
  | sending
  | blocked
  | failed
  | sent
deriving DecidableEq, Repr

/-- The `active_order_*` columns of a `dca_plans` row, grouped: remote order id,
deposit address, the stored `"{amount} {code}"` text, and expiry timestamp. -/
structure OrderRef where
  orderId : String
  address : String
  amountText : String
  expires : Int
deriving DecidableEq, Repr

/-- A `dca_plans` row. -/
structure Plan where
  planId : Nat
  userId : Nat
  fromAsset : String
  amount : ℚ
  intervalHours : Nat
  btcAddress : String
  nextRun : Int
  active : Bool
  deleted : Bool
  activeOrder : Option OrderRef
deriving DecidableEq, Repr

/-- A `sent_transactions` (Ledger) row.  `sentAt` models the `sent_at` column
(set to the insertion time by the schema default). -/
structure LedgerRow where
  userId : Nat
  planId : Nat
  orderId : String
  networkKey : String
  approveTx : Option String
  transferTx : Option String
  amount : ℚ
  depositAddress : String
  state : TxState
  errorMessage : Option String
  sentAt : Option Int
deriving DecidableEq, Repr

/-- A row is "open" when its state is in the mutual-exclusion set. -/
def LedgerRow.isOpen (r : LedgerRow) : Bool :=
  r.state == .sending || r.state == .blocked

/-- Number of open rows recorded for one plan. -/
def openRowCount (pid : Nat) (ledger : List LedgerRow) : Nat :=
  (ledger.filter fun r => r.planId == pid && r.isOpen).length

/-- Number of rows recorded for one (plan, remote order) pair. -/
def keyCount (oid : String) (pid : Nat) (ledger : List LedgerRow) : Nat :=
  (ledger.filter fun r => r.orderId == oid && r.planId == pid).length

/-- Lookup mirroring
`SELECT ... FROM sent_transactions WHERE order_id = ? AND plan_id = ?` with
`fetchone` (first row in insertion order; new rows are appended). -/
def ledgerFind (ledger : List LedgerRow) (oid : String) (pid : Nat) : Option LedgerRow :=
  ledger.find? fun r => r.orderId == oid && r.planId == pid

/-- In-place update mirroring
`UPDATE sent_transactions SET ... WHERE order_id = ? AND plan_id = ?`. -/
def ledgerUpdateWhere (ledger : List LedgerRow) (oid : String) (pid : Nat)
    (f : LedgerRow → LedgerRow) : List LedgerRow :=
  ledger.map fun r => if r.orderId == oid && r.planId == pid then f r else r

/-- Python `x or d` for an optional integer column (falsy: `None` and `0`),
as in `last_attempt_time or now` (src/bot.py line 555). -/
def pyOrElse (x : Option Int) (d : Int) : Int :=
  match x with
  | none => d
  | some v => if v = 0 then d else v

/-- Due-plan selection predicate of the scheduler query (src/bot.py line 516):
`active = 1 AND deleted = 0 AND next_run <= now`. -/
def duePlan (now : Int) (p : Plan) : Bool :=
  p.active && !p.deleted && decide (p.nextRun ≤ now)

/-! ### Execution coordinator: src/bot.py dca_scheduler (lines 497-889) -/

/-- Parsed fields of a FixedFloat `create` response as the scheduler reads
them (src/bot.py lines 630-640).  `depositAmountParsed` is the outcome of
`float(deposit_amount)` on the quoted amount string (`none` when unparseable). -/
structure OrderData where
  orderId : String
  depositCode : String
  depositAddress : String
  depositAmountText : String
  depositAmountParsed : Option ℚ
  timeLeft : Int
deriving DecidableEq, Repr

/-- Outcome of the `await auto_send_usdt(...)` call as the scheduler sees it:
either the call raised, or it returned `(success, approve_tx, transfer_tx,
error_msg)`. -/
inductive SendCallOutcome where
  | raised (msg : String)
  | returned (success : Bool) (approveTx transferTx : Option String) (errorMsg : String)
deriving DecidableEq, Repr

/-- Notifications sent to the user, with the data the message f-strings
interpolate. -/
inductive Notification where
  | amountOutOfLimits (amount mn mx : ℚ)
  | networkUnavailable (asset : String) (intervalHours : Nat)
  | planExecutedAutoSending (orderId : String)
  | sentOk (orderId : String) (approveTx transferTx : Option String)
      (amount : ℚ) (addr : String)
  | blockedWillRetry (orderId : String) (errTrunc : String) (intervalHours : Nat)
  | failedAfterRaise (orderId : String) (errTrunc : String)
  | failedManualSend (orderId : String) (err : String) (amount : ℚ) (addr : String)
  | manualSendNeeded (orderId : String) (amountText : String) (addr : String)
  | planError (err : String)
deriving DecidableEq, Repr

/-- Manual-execute notifications (src/bot.py cmd_execute). -/
inductive ManualNotice where
  | activeOrderExists (orderId : String)
  | limitsRejected
  | limitsUnavailableNotice
  | limitsCheckFailed (msg : String)
  | orderCreatedManualSend (orderId : String)
  | errorNotice (msg : String)
deriving DecidableEq, Repr

/-- Observable steps of one per-plan iteration, in program order.  Database
events stand for the statement followed by the `commit()` that makes it
durable. -/
inductive Event where
  | notify (n : Notification)
  | notifyM (n : ManualNotice)
  | dbSetNextRun (planId : Nat) (t : Int)
  | dbSaveActiveOrder (planId : Nat) (o : OrderRef)
  | dbClearActiveOrder (planId : Nat)
  | dbInsertLedger (row : LedgerRow)
  | invokeAutoSend (orderId : String) (amount : ℚ) (addr : String)
  | dbSetTxState (orderId : String) (planId : Nat) (st : TxState) (err : Option String)
  | dbSetTxSent (orderId : String) (planId : Nat) (approveTx transferTx : Option String)
deriving DecidableEq, Repr

def Event.isInvoke : Event → Bool
  | .invokeAutoSend _ _ _ => true
  | _ => false

def Event.isInsert : Event → Bool
  | .dbInsertLedger _ => true
  | _ => false

def Event.isSetNextRun : Event → Bool
  | .dbSetNextRun _ _ => true
  | _ => false

/-- External responses observed during one scheduler iteration for one plan. -/
structure TickEnv where
  /-- `int(time.time())` at the top of the tick. -/
  now : Int
  /-- `get_fixedfloat_limits(from_asset)`: `(min, max)` or a RuntimeError text. -/
  limits : Except String (ℚ × ℚ)
  /-- `create_fixedfloat_order(...)`: order data or an exception text. -/
  createOrder : Except String OrderData
  /-- `SELECT wallet_address FROM wallets WHERE user_id = ?` found a row. -/
  walletConfigured : Bool
  /-- `_wallet_passwords.get(user_id)` found a cached password. -/
  passwordCached : Bool
  /-- Outcome of the `auto_send_usdt` call. -/
  sendOutcome : SendCallOutcome
deriving Repr

/-- Result of one per-plan scheduler iteration: the plan row, the ledger, and
the emitted events in order. -/
structure TickResult where
  plan : Plan
  ledger : List LedgerRow
  events : List Event
deriving Repr

/-- Step-1 eligibility (src/bot.py lines 525-574): `true` when the iteration
proceeds to limits/order creation, `false` when the plan is skipped this tick
(`continue`). -/
def step1Proceed (env : TickEnv) (p : Plan) (ledger : List LedgerRow) : Bool :=
  match p.activeOrder with
  | none => true
  | some o =>
    if o.orderId != "" && o.expires != 0 && decide (o.expires > env.now) then
      match ledgerFind ledger o.orderId p.planId with
      | none => false
      | some row =>
        match row.state with
        | .sent => true
        | .sending => false
        | .blocked =>
          let dcaIntervalSeconds : Int := (p.intervalHours : Int) * 3600
          let timeSince : Int := env.now - pyOrElse row.sentAt env.now
          decide (dcaIntervalSeconds ≤ timeSince)
        | .failed => true
        | .scheduled => true
    else true

/-- The `'sending'` row inserted write-ahead (src/bot.py lines 674-679). -/
def mkSendingRow (now : Int) (p : Plan) (od : OrderData) (requiredAmount : ℚ) : LedgerRow :=
  ⟨p.userId, p.planId, od.orderId, p.fromAsset, none, none, requiredAmount,
    od.depositAddress, .sending, none, some now⟩

/-- Auto-send branch of the iteration (src/bot.py lines 666-843), entered with
a configured wallet and cached password after the order was persisted. -/
def sendPhase (env : TickEnv) (p₁ : Plan) (ledger : List LedgerRow) (od : OrderData)
    (ev₁ : List Event) : TickResult :=
  let adv : Int := env.now + (p₁.intervalHours : Int) * 3600
  let requiredAmount : ℚ := od.depositAmountParsed.getD p₁.amount
  let newRow := mkSendingRow env.now p₁ od requiredAmount
  let ledger₁ := ledger ++ [newRow]
  let ev₂ := ev₁ ++ [Event.dbInsertLedger newRow,
    Event.notify (.planExecutedAutoSending od.orderId),
    Event.invokeAutoSend od.orderId requiredAmount od.depositAddress]
  match env.sendOutcome with
  | .raised msg =>
    if isRetryable msg then
      ⟨p₁,
        ledgerUpdateWhere ledger₁ od.orderId p₁.planId
          (fun r => { r with state := .blocked, errorMessage := some (pyTake msg 500) }),
        ev₂ ++ [Event.dbSetTxState od.orderId p₁.planId .blocked (some (pyTake msg 500)),
          Event.notify (.blockedWillRetry od.orderId (pyTake msg 200) p₁.intervalHours)]⟩
    else
      ⟨{ p₁ with nextRun := adv },
        ledgerUpdateWhere ledger₁ od.orderId p₁.planId
          (fun r => { r with state := .failed, errorMessage := some (pyTake msg 500) }),
        ev₂ ++ [Event.dbSetTxState od.orderId p₁.planId .failed (some (pyTake msg 500)),
          Event.notify (.failedAfterRaise od.orderId (pyTake msg 200)),
          Event.dbSetNextRun p₁.planId adv]⟩
  | .returned success aTx tTx errMsg =>
    if success then
      ⟨{ p₁ with nextRun := adv },
        ledgerUpdateWhere ledger₁ od.orderId p₁.planId
          (fun r => { r with approveTx := aTx, transferTx := tTx, state := .sent }),
        ev₂ ++ [Event.dbSetTxSent od.orderId p₁.planId aTx tTx,
          Event.notify (.sentOk od.orderId aTx tTx requiredAmount od.depositAddress),
          Event.dbSetNextRun p₁.planId adv]⟩
    else if isRetryable errMsg then
      ⟨p₁,
        ledgerUpdateWhere ledger₁ od.orderId p₁.planId
          (fun r => { r with state := .blocked, errorMessage := some (pyTake errMsg 500) }),
        ev₂ ++ [Event.dbSetTxState od.orderId p₁.planId .blocked (some (pyTake errMsg 500)),
          Event.notify (.blockedWillRetry od.orderId (pyTake errMsg 200) p₁.intervalHours)]⟩
    else
      ⟨{ p₁ with nextRun := adv },
        ledgerUpdateWhere ledger₁ od.orderId p₁.planId
          (fun r => { r with state := .failed, errorMessage := some (pyTake errMsg 500) }),
        ev₂ ++ [Event.dbSetTxState od.orderId p₁.planId .failed (some (pyTake errMsg 500)),
          Event.notify (.failedManualSend od.orderId errMsg requiredAmount od.depositAddress),
          Event.dbSetNextRun p₁.planId adv]⟩

/-- Order reference persisted on the plan after order creation
(src/bot.py lines 636-653 and 1327-1352): deposit address, the stored
`"{amount} {code}"` text, and `now + max(0, time_left)` as expiry. -/
def mkOrderRef (now : Int) (od : OrderData) : OrderRef :=
  ⟨od.orderId, od.depositAddress, od.depositAmountText ++ " " ++ od.depositCode,
    now + max 0 od.timeLeft⟩

/-- Order creation and onward (src/bot.py lines 622-886): persist the order
on the plan, then either auto-send or leave it for manual fulfillment; an
exception from order creation hits the per-plan handler (lines 867-886). -/
def afterLimits (env : TickEnv) (p : Plan) (ledger : List LedgerRow) : TickResult :=
  let adv : Int := env.now + (p.intervalHours : Int) * 3600
  match env.createOrder with
  | .error msg =>
      ⟨{ p with nextRun := adv }, ledger,
        [Event.notify (.planError msg), Event.dbSetNextRun p.planId adv]⟩
  | .ok od =>
    let oRef : OrderRef := mkOrderRef env.now od
    let p₁ := { p with activeOrder := some oRef }
    let ev₁ := [Event.dbSaveActiveOrder p.planId oRef]
    if env.walletConfigured && env.passwordCached then
      sendPhase env p₁ ledger od ev₁
    else
      ⟨{ p₁ with nextRun := adv }, ledger,
        ev₁ ++ [Event.notify (.manualSendNeeded od.orderId
            (od.depositAmountText ++ " " ++ od.depositCode) od.depositAddress),
          Event.dbSetNextRun p.planId adv]⟩

/-- Limits check (src/bot.py lines 578-620).  On a RuntimeError whose text is
not of the "unavailable" kind the handler falls through and the iteration
proceeds to order creation (the `except` body ends without `continue`). -/
def afterEligibility (env : TickEnv) (p : Plan) (ledger : List LedgerRow) : TickResult :=
  let adv : Int := env.now + (p.intervalHours : Int) * 3600
  match env.limits with
  | .ok (mn, mx) =>
    let effectiveMax := min mx (500 : ℚ)
    if p.amount < mn ∨ p.amount > effectiveMax then
      ⟨{ p with nextRun := adv }, ledger,
        [Event.notify (.amountOutOfLimits p.amount mn effectiveMax),
          Event.dbSetNextRun p.planId adv]⟩
    else
      afterLimits env p ledger
  | .error msg =>
    if limitsUnavailable msg then
      ⟨{ p with nextRun := adv }, ledger,
        [Event.notify (.networkUnavailable p.fromAsset p.intervalHours),
          Event.dbSetNextRun p.planId adv]⟩
    else
      afterLimits env p ledger

/-- One scheduler iteration for one due plan (src/bot.py lines 521-886). -/
def processDuePlan (env : TickEnv) (p : Plan) (ledger : List LedgerRow) : TickResult :=
  if step1Proceed env p ledger then
    afterEligibility env p ledger
  else
    ⟨p, ledger, []⟩

/-! ### Manual execution path: src/bot.py cmd_execute (lines 1151-1459) -/

/-- Columns of the `wallets` table as created by `init_db`
(src/bot.py lines 430-437). -/
def walletsColumns : List String := ["id", "user_id", "wallet_address", "created_at"]

/-- Wallet lookup of the manual path (src/bot.py lines 1356-1360):
`SELECT wallet_address FROM wallets WHERE user_id = ? AND network_key = ?`.
The `wallets` table has no `network_key` column, so sqlite raises
OperationalError; the exception is caught by the handler at line 1457. -/
def manualWalletLookup (walletRow : Option String) : Except String (Option String) :=
  if "network_key" ∈ walletsColumns then .ok walletRow
  else .error "no such column: network_key"

/-- External responses observed by one manual-execute invocation. -/
structure ManualEnv where
  now : Int
  limits : Except String (ℚ × ℚ)
  createOrder : Except String OrderData
deriving Repr

/-- Limits check, order creation and persistence of `/execute`
(src/bot.py lines 1262-1459), entered after the active-order guard.  The
wallet lookup after order persistence raises (see `manualWalletLookup`), so
the auto-send branch (lines 1365-1439) — whose only ledger INSERT
(line 1397) uses the default `'scheduled'` state — is unreachable; and even
on the `.ok` arm the password lookup
`_wallet_passwords.get((user_id, from_asset))` (line 1363) misses, because
the cache is keyed by bare user ids (src/bot.py lines 1881, 2369), which
selects the manual-fulfillment reply (lines 1441-1453). -/
def manualExecuteCont (env : ManualEnv) (walletRow : Option String) (p₀ : Plan)
    (ledger : List LedgerRow) (ev₀ : List Event) : TickResult :=
  match env.limits with
  | .ok (mn, mx) =>
    let effectiveMax := min mx (500 : ℚ)
    if p₀.amount < mn ∨ p₀.amount > effectiveMax then
      ⟨p₀, ledger, ev₀ ++ [Event.notifyM .limitsRejected]⟩
    else
      match env.createOrder with
      | .error msg => ⟨p₀, ledger, ev₀ ++ [Event.notifyM (.errorNotice msg)]⟩
      | .ok od =>
        let oRef : OrderRef := mkOrderRef env.now od
        let p₁ := { p₀ with activeOrder := some oRef }
        match manualWalletLookup walletRow with
        | .error msg =>
            ⟨p₁, ledger, ev₀ ++ [Event.dbSaveActiveOrder p₀.planId oRef,
              Event.notifyM (.errorNotice msg)]⟩
        | .ok _ =>
            ⟨p₁, ledger, ev₀ ++ [Event.dbSaveActiveOrder p₀.planId oRef,
              Event.notifyM (.orderCreatedManualSend od.orderId)]⟩
  | .error msg =>
    if limitsUnavailable msg then
      ⟨p₀, ledger, ev₀ ++ [Event.notifyM .limitsUnavailableNotice]⟩
    else
      ⟨p₀, ledger, ev₀ ++ [Event.notifyM (.limitsCheckFailed msg)]⟩

/-- Per-plan part of `/execute` (src/bot.py lines 1228-1459), after the plan
row was fetched.  A plan holding an unexpired active order stops the command
(lines 1232-1251); an expired order reference is cleared (lines 1252-1260);
the rest is `manualExecuteCont`. -/
def manualExecute (env : ManualEnv) (walletRow : Option String) (p : Plan)
    (ledger : List LedgerRow) : TickResult :=
  match p.activeOrder with
  | some o =>
    if o.orderId != "" && o.expires != 0 && decide (o.expires > env.now) then
      ⟨p, ledger, [Event.notifyM (.activeOrderExists o.orderId)]⟩
    else if o.orderId != "" && o.expires != 0 && decide (o.expires ≤ env.now) then
      manualExecuteCont env walletRow { p with activeOrder := none } ledger
        [Event.dbClearActiveOrder p.planId]
    else
      manualExecuteCont env walletRow p ledger []
  | none => manualExecuteCont env walletRow p ledger []

/-! ### Plan lifecycle: src/bot.py cmd_delete and cmd_setdca -/

/-- Outcome of `/delete_N` for an owned, non-deleted plan. -/
inductive DeleteOutcome where
  | softDeletedWithOrder (o : OrderRef)
  | softDeleted
deriving DecidableEq, Repr

/-- Deletion of an owned plan (src/bot.py lines 1753-1798).  Both branches run
`UPDATE dca_plans SET deleted = 1, active = 0` and leave the `active_order_*`
columns untouched; the branch taken only selects the reply text. -/
def cmdDelete (now : Int) (p : Plan) : Plan × DeleteOutcome :=
  match p.activeOrder with
  | some o =>
    if o.orderId != "" && o.expires != 0 then
      if o.expires > now then
        ({ p with deleted := true, active := false }, .softDeletedWithOrder o)
      else
        ({ p with deleted := true, active := false }, .softDeleted)
    else
      ({ p with deleted := true, active := false }, .softDeleted)
  | none => ({ p with deleted := true, active := false }, .softDeleted)

/-- Outcome of the persistence part of `/setdca`. -/
inductive SetdcaOutcome where
  | duplicateWithActiveOrder (orderId : String)
  | duplicateExists
  | planLimitReached
  | createdInheriting (o : OrderRef)
  | createdFresh
deriving DecidableEq, Repr

/-- First row of `... ORDER BY active_order_expires DESC LIMIT 1` over plans
that carry an order reference. -/
def maxByExpires : List Plan → Option Plan
  | [] => none
  | p :: ps =>
    match maxByExpires ps with
    | none => some p
    | some q =>
      if ((q.activeOrder.map OrderRef.expires).getD 0) >
          ((p.activeOrder.map OrderRef.expires).getD 0) then some q
      else some p

/-- Persistence part of `/setdca` (src/bot.py lines 2145-2257), entered after
parameter validation with the caller's validated arguments.  Checks the
duplicate-plan rule and the 3-plans-per-network cap over non-deleted rows,
then looks for an unexpired order preserved on a deleted plan with the same
(network, amount, interval): if its BTC address matches the new plan inherits
the order reference, otherwise the plan is created without it. -/
def cmdSetdcaDb (now : Int) (plans : List Plan) (newId : Nat) (userId : Nat)
    (fromAsset : String) (amount : ℚ) (interval : Nat) (btcAddress : String) :
    SetdcaOutcome × List Plan :=
  let nextRun : Int := now + (interval : Int) * 3600
  let newPlanBase : Plan :=
    ⟨newId, userId, fromAsset, amount, interval, btcAddress, nextRun, true, false, none⟩
  let plansCount :=
    (plans.filter fun q =>
      q.userId == userId && q.fromAsset == fromAsset && !q.deleted).length
  let duplicate :=
    plans.find? fun q =>
      q.userId == userId && q.fromAsset == fromAsset && q.amount == amount &&
        q.intervalHours == interval && !q.deleted
  match duplicate with
  | some d =>
    match d.activeOrder with
    | some o =>
      if o.orderId != "" && o.expires != 0 && decide (o.expires > now) then
        (.duplicateWithActiveOrder o.orderId, plans)
      else
        (.duplicateExists, plans)
    | none => (.duplicateExists, plans)
  | none =>
    if plansCount ≥ 3 then
      (.planLimitReached, plans)
    else
      let deletedMatches :=
        plans.filter fun q =>
          q.userId == userId && q.fromAsset == fromAsset && q.amount == amount &&
            q.intervalHours == interval && q.activeOrder.isSome && q.deleted
      match maxByExpires deletedMatches with
      | some q =>
        match q.activeOrder with
        | some o =>
          if o.expires != 0 && decide (o.expires > now) then
            if q.btcAddress != btcAddress then
              (.createdFresh, plans ++ [newPlanBase])
            else
              (.createdInheriting o, plans ++ [{ newPlanBase with activeOrder := some o }])
          else
            (.createdFresh, plans ++ [newPlanBase])
        | none => (.createdFresh, plans ++ [newPlanBase])
      | none => (.createdFresh, plans ++ [newPlanBase])

/-! ### Derived observations -/

/-- Notifications emitted strictly after the `auto_send_usdt` invocation of an
iteration (the progress notification of src/bot.py line 681 precedes the
invocation and is not counted). -/
def notificationsAfter (evs : List Event) : List Notification :=
  ((evs.dropWhile fun ev => !ev.isInvoke).drop 1).filterMap fun ev =>
    match ev with
    | .notify n => some n
    | _ => none

/-! ### Concrete instances used by witnesses and counterexamples -/

/-- Fresh plan used by the C1 counterexample run. -/
def planC1 : Plan := ⟨1, 7, "USDT-ARB", 50, 12, "bc1qar0srrr7xfkvy5l643lydnw9re59gtzzwf5mdq", 0, true, false, none⟩

def odC1a : OrderData := ⟨"ORD1", "USDTARBITRUM", "0xdead1", "50", some 50, 200000⟩

def odC1b : OrderData := ⟨"ORD2", "USDTARBITRUM", "0xdead2", "50", some 50, 200000⟩

/-- First tick: order ORD1 is created and the transfer fails transiently. -/
def envC1a : TickEnv :=
  ⟨1000, .ok (10, 500), .ok odC1a, true, true, .returned false none none "connection timeout"⟩

/-- Second tick, one DCA interval (12 h) later: ORD1 is still unexpired and
blocked, the gate has elapsed, a new order ORD2 is created and fails
transiently again. -/
def envC1b : TickEnv :=
  ⟨44200, .ok (10, 500), .ok odC1b, true, true, .returned false none none "connection timeout"⟩

def tickC1a : TickResult := processDuePlan envC1a planC1 []

def tickC1b : TickResult := processDuePlan envC1b tickC1a.plan tickC1a.ledger

/-- Plan and environment for the manual-execute instantiation of the C1
amended theorem. -/
def planManualW : Plan :=
  ⟨3, 7, "USDT-ARB", 50, 24, "bc1qar0srrr7xfkvy5l643lydnw9re59gtzzwf5mdq", 0, true, false,
    some ⟨"ORDW", "0xdeadW", "50.0 USDTARBITRUM", 99999⟩⟩

def manEnvW : ManualEnv := ⟨2000, .ok (10, 500), .error "unused"⟩

/-- Environment for the write-ahead (C2) and classification (C3/C4) witnesses:
everything up to the send succeeds, the transfer step fails with
"connection timeout". -/
def envC2 : TickEnv :=
  ⟨1000, .ok (10, 500), .ok odC1a, true, true, .returned false none none "connection timeout"⟩

/-- Same reachable send phase, permanent error "execution reverted". -/
def envC4perm : TickEnv :=
  ⟨1000, .ok (10, 500), .ok odC1a, true, true,
    .returned false none none "Transfer failed: execution reverted"⟩

/-- Sequencer environment where every step succeeds and the allowance is zero. -/
def sendEnvOk : SendEnv :=
  ⟨true, .ok "0xkey", .ok "0xDepositChecksum", .ok (100, 1), .ok (50000, 60000, 1),
    .ok 0, .ok (some "0xapprove"), .ok 1, .ok (some "0xtransfer"), .ok 1⟩

/-- Sequencer environment for the C6 witness: USDT balance 10 below the
required 50. -/
def sendEnvLowUsdt : SendEnv :=
  ⟨true, .ok "0xkey", .ok "0xDepositChecksum", .ok (10, 1), .ok (50000, 60000, 1),
    .ok 0, .ok (some "0xapprove"), .ok 1, .ok (some "0xtransfer"), .ok 1⟩

/-- Plan used by the C8 correction: soft-deleted, still holding the unexpired
order ORD1. -/
def planC8deleted : Plan :=
  ⟨1, 7, "USDT-ARB", 50, 24, "bc1qw508d6qejxtdg4y5r3zarvary0c5xw7kv8f3t4", 5000, false, true,
    some ⟨"ORD1", "0xdead1", "50.5 USDTARBITRUM", 99999⟩⟩

/-- Live plan holding an unexpired order, input of the C8 amended witness. -/
def planC8live : Plan :=
  ⟨1, 7, "USDT-ARB", 50, 24, "bc1qw508d6qejxtdg4y5r3zarvary0c5xw7kv8f3t4", 5000, true, false,
    some ⟨"ORD1", "0xdead1", "50.5 USDTARBITRUM", 99999⟩⟩

/-! ### Helper lemmas -/

theorem isRetryable_iff (e : String) :
    isRetryable e = true ↔ ∃ k ∈ transientKeywords, k.toList <:+: (pyLower e).toList := by
  simp [isRetryable, strContains, List.any_eq_true]

theorem keyCount_append (oid : String) (pid : Nat) (l₁ l₂ : List LedgerRow) :
    keyCount oid pid (l₁ ++ l₂) = keyCount oid pid l₁ + keyCount oid pid l₂ := by
  simp [keyCount, List.filter_append]

theorem length_filter_map_of_pred_eq {α : Type} (g : α → α) (pred : α → Bool)
    (h : ∀ x, pred (g x) = pred x) (l : List α) :
    ((l.map g).filter pred).length = (l.filter pred).length := by
  induction l with
  | nil => rfl
  | cons r l ih =>
    simp only [List.map_cons, List.filter_cons, h r]
    split <;> simp [ih]

theorem keyCount_updateWhere (oid : String) (pid : Nat) (o : String) (q : Nat)
    (f : LedgerRow → LedgerRow)
    (hf : ∀ r, (f r).orderId = r.orderId ∧ (f r).planId = r.planId)
    (l : List LedgerRow) :
    keyCount oid pid (ledgerUpdateWhere l o q f) = keyCount oid pid l := by
  unfold keyCount ledgerUpdateWhere
  refine length_filter_map_of_pred_eq _ _ (fun x => ?_) l
  by_cases hc : (x.orderId == o && x.planId == q) = true
  · simp [hc, (hf x).1, (hf x).2]
  · simp [hc]

theorem keyCount_singleton (oid : String) (pid : Nat) (r : LedgerRow) :
    keyCount oid pid [r] = if (r.orderId == oid && r.planId == pid) = true then 1 else 0 := by
  by_cases h : (r.orderId == oid && r.planId == pid) = true
  · simp [keyCount, List.filter, h]
  · simp [keyCount, List.filter, h]

theorem ledgerFind_updateWhere_append (oid : String) (pid : Nat)
    (f : LedgerRow → LedgerRow)
    (hf : ∀ r, (f r).orderId = r.orderId ∧ (f r).planId = r.planId)
    (row : LedgerRow) (hro : row.orderId = oid) (hrp : row.planId = pid)
    (l : List LedgerRow) (hfresh : ∀ r ∈ l, r.orderId ≠ oid) :
    ledgerFind (ledgerUpdateWhere (l ++ [row]) oid pid f) oid pid = some (f row) := by
  induction l with
  | nil =>
    simp [ledgerUpdateWhere, ledgerFind, hro, hrp, List.find?, (hf row).1, (hf row).2]
  | cons r l ih =>
    have hr : r.orderId ≠ oid := hfresh r (List.mem_cons_self r l)
    have hmatch : (r.orderId == oid && r.planId == pid) = false := by
      simp [hr]
    simp only [List.cons_append, ledgerUpdateWhere, List.map_cons, ledgerFind, List.find?]
    rw [hmatch]
    simp only [Bool.false_eq_true, if_false]
    rw [hmatch]
    exact ih fun x hx => hfresh x (List.mem_cons_of_mem r hx)

theorem transferPhase_actions (env : SendEnv) (amt : ℚ) (ca : String)
    (aTx : Option String) (acts : List ChainAction) :
    ∃ rest, (transferPhase env amt ca false aTx acts).actions
        = acts ++ ChainAction.transferAttempt ca amt :: rest
      ∧ rest.countP ChainAction.isApproveAttempt = 0
      ∧ rest.countP ChainAction.isTransferAttempt = 0 := by
  unfold transferPhase
  cases env.transferCall with
  | error e => exact ⟨[], by simp [ChainAction.isApproveAttempt, ChainAction.isTransferAttempt]⟩
  | ok oh =>
    cases oh with
    | none => exact ⟨[], by simp [ChainAction.isApproveAttempt, ChainAction.isTransferAttempt]⟩
    | some th =>
      cases env.transferReceipt with
      | error e =>
        exact ⟨[.transferAwait th],
          by simp [ChainAction.isApproveAttempt, ChainAction.isTransferAttempt,
            List.countP_cons]⟩
      | ok status =>
        refine ⟨[.transferAwait th], ?_⟩
        by_cases h : status ≠ 1 <;>
          simp [h, ChainAction.isApproveAttempt, ChainAction.isTransferAttempt,
            List.countP_cons]

theorem approvePhase_spec (env : SendEnv) (amt : ℚ) (ca : String) (a : ℚ)
    (hlt : a < amt) :
    (∃ r, approvePhase env amt ca false a = Sum.inl r
        ∧ (r.actions = [ChainAction.approveAttempt ca amt]
            ∨ ∃ h, r.actions
                = [ChainAction.approveAttempt ca amt, ChainAction.approveAwait h]))
    ∨ ∃ h, approvePhase env amt ca false a
          = Sum.inr (some h,
              [ChainAction.approveAttempt ca amt, ChainAction.approveAwait h])
        ∧ env.approveCall = Except.ok (some h) ∧ env.approveReceipt = Except.ok 1 := by
  unfold approvePhase
  rw [if_pos hlt]
  simp only [Bool.false_eq_true, if_false]
  cases hac : env.approveCall with
  | error e => exact Or.inl ⟨_, rfl, Or.inl rfl⟩
  | ok oh =>
    cases oh with
    | none => exact Or.inl ⟨_, rfl, Or.inl rfl⟩
    | some h =>
      cases har : env.approveReceipt with
      | error e => exact Or.inl ⟨_, rfl, Or.inr ⟨h, rfl⟩⟩
      | ok status =>
        by_cases hs : status = 1
        · subst hs
          exact Or.inr ⟨h, rfl, rfl, rfl⟩
        · exact Or.inl ⟨_, if_pos hs, Or.inr ⟨h, rfl⟩⟩

theorem sendPhase_events_shape (env : TickEnv) (p₁ : Plan) (ledger : List LedgerRow)
    (od : OrderData) (ev₁ : List Event) :
    ∃ tail, (sendPhase env p₁ ledger od ev₁).events
        = ev₁ ++ Event.dbInsertLedger
              (mkSendingRow env.now p₁ od (od.depositAmountParsed.getD p₁.amount))
            :: Event.notify (.planExecutedAutoSending od.orderId)
            :: Event.invokeAutoSend od.orderId (od.depositAmountParsed.getD p₁.amount)
                od.depositAddress
            :: tail
      ∧ tail.countP Event.isInvoke = 0
      ∧ tail.countP Event.isInsert = 0 := by
  unfold sendPhase
  cases env.sendOutcome with
  | raised msg =>
    by_cases h : isRetryable msg = true
    · refine ⟨[Event.dbSetTxState od.orderId p₁.planId .blocked (some (pyTake msg 500)),
        Event.notify (.blockedWillRetry od.orderId (pyTake msg 200) p₁.intervalHours)],
        by simp [h], ?_, ?_⟩ <;> simp [Event.isInvoke, Event.isInsert, List.countP_cons]
    · refine ⟨[Event.dbSetTxState od.orderId p₁.planId .failed (some (pyTake msg 500)),
        Event.notify (.failedAfterRaise od.orderId (pyTake msg 200)),
        Event.dbSetNextRun p₁.planId (env.now + (p₁.intervalHours : Int) * 3600)],
        by simp [h], ?_, ?_⟩ <;> simp [Event.isInvoke, Event.isInsert, List.countP_cons]
  | returned success aTx tTx errMsg =>
    by_cases hsucc : success = true
    · refine ⟨[Event.dbSetTxSent od.orderId p₁.planId aTx tTx,
        Event.notify (.sentOk od.orderId aTx tTx (od.depositAmountParsed.getD p₁.amount)
          od.depositAddress),
        Event.dbSetNextRun p₁.planId (env.now + (p₁.intervalHours : Int) * 3600)],
        by simp [hsucc], ?_, ?_⟩ <;> simp [Event.isInvoke, Event.isInsert, List.countP_cons]
    · by_cases h : isRetryable errMsg = true
      · refine ⟨[Event.dbSetTxState od.orderId p₁.planId .blocked (some (pyTake errMsg 500)),
          Event.notify (.blockedWillRetry od.orderId (pyTake errMsg 200) p₁.intervalHours)],
          by simp [hsucc, h], ?_, ?_⟩ <;>
          simp [Event.isInvoke, Event.isInsert, List.countP_cons]
      · refine ⟨[Event.dbSetTxState od.orderId p₁.planId .failed (some (pyTake errMsg 500)),
          Event.notify (.failedManualSend od.orderId errMsg
            (od.depositAmountParsed.getD p₁.amount) od.depositAddress),
          Event.dbSetNextRun p₁.planId (env.now + (p₁.intervalHours : Int) * 3600)],
          by simp [hsucc, h], ?_, ?_⟩ <;>
          simp [Event.isInvoke, Event.isInsert, List.countP_cons]

theorem sendPhase_ledger_shape (env : TickEnv) (p₁ : Plan) (ledger : List LedgerRow)
    (od : OrderData) (ev₁ : List Event) :
    ∃ f, (∀ r, (f r).orderId = r.orderId ∧ (f r).planId = r.planId)
      ∧ (sendPhase env p₁ ledger od ev₁).ledger
          = ledgerUpdateWhere
              (ledger ++ [mkSendingRow env.now p₁ od (od.depositAmountParsed.getD p₁.amount)])
              od.orderId p₁.planId f := by
  unfold sendPhase
  cases env.sendOutcome with
  | raised msg =>
    by_cases h : isRetryable msg = true
    · exact ⟨fun r => { r with state := .blocked, errorMessage := some (pyTake msg 500) },
        fun r => ⟨rfl, rfl⟩, by simp [h]⟩
    · exact ⟨fun r => { r with state := .failed, errorMessage := some (pyTake msg 500) },
        fun r => ⟨rfl, rfl⟩, by simp [h]⟩
  | returned success aTx tTx errMsg =>
    by_cases hsucc : success = true
    · exact ⟨fun r => { r with approveTx := aTx, transferTx := tTx, state := .sent },
        fun r => ⟨rfl, rfl⟩, by simp [hsucc]⟩
    · by_cases h : isRetryable errMsg = true
      · exact ⟨fun r => { r with state := .blocked, errorMessage := some (pyTake errMsg 500) },
          fun r => ⟨rfl, rfl⟩, by simp [hsucc, h]⟩
      · exact ⟨fun r => { r with state := .failed, errorMessage := some (pyTake errMsg 500) },
          fun r => ⟨rfl, rfl⟩, by simp [hsucc, h]⟩

theorem afterLimits_ledger_shape (env : TickEnv) (p : Plan) (ledger : List LedgerRow) :
    (afterLimits env p ledger).ledger = ledger
    ∨ ∃ od row f, env.createOrder = Except.ok od
        ∧ row.orderId = od.orderId ∧ row.planId = p.planId
        ∧ (∀ r, (f r).orderId = r.orderId ∧ (f r).planId = r.planId)
        ∧ (afterLimits env p ledger).ledger
            = ledgerUpdateWhere (ledger ++ [row]) od.orderId p.planId f := by
  unfold afterLimits
  cases ho : env.createOrder with
  | error msg => exact Or.inl rfl
  | ok od =>
    by_cases hw : (env.walletConfigured && env.passwordCached) = true
    · obtain ⟨f, hf, hl⟩ := sendPhase_ledger_shape env
        { p with activeOrder := some (mkOrderRef env.now od) } ledger od
        [Event.dbSaveActiveOrder p.planId (mkOrderRef env.now od)]
      right
      refine ⟨od,
        mkSendingRow env.now { p with activeOrder := some (mkOrderRef env.now od) }
          od (od.depositAmountParsed.getD p.amount),
        f, rfl, rfl, rfl, hf, ?_⟩
      simp only [hw, if_true]
      exact hl
    · left
      simp [hw]

theorem processDuePlan_ledger_shape (env : TickEnv) (p : Plan) (ledger : List LedgerRow) :
    (processDuePlan env p ledger).ledger = ledger
    ∨ ∃ od row f, env.createOrder = Except.ok od
        ∧ row.orderId = od.orderId ∧ row.planId = p.planId
        ∧ (∀ r, (f r).orderId = r.orderId ∧ (f r).planId = r.planId)
        ∧ (processDuePlan env p ledger).ledger
            = ledgerUpdateWhere (ledger ++ [row]) od.orderId p.planId f := by
  unfold processDuePlan afterEligibility
  split
  · split
    · dsimp only
      split
      · exact Or.inl rfl
      · exact afterLimits_ledger_shape env p ledger
    · dsimp only
      split
      · exact Or.inl rfl
      · exact afterLimits_ledger_shape env p ledger
  · exact Or.inl rfl

theorem processDuePlan_send_reduction (env : TickEnv) (p : Plan) (ledger : List LedgerRow)
    (od : OrderData) (mn mx : ℚ)
    (hstep : step1Proceed env p ledger = true)
    (hlim : env.limits = Except.ok (mn, mx))
    (hmn : mn ≤ p.amount) (hmx : p.amount ≤ min mx 500)
    (hord : env.createOrder = Except.ok od)
    (hw : env.walletConfigured = true) (hpw : env.passwordCached = true) :
    processDuePlan env p ledger
      = sendPhase env { p with activeOrder := some (mkOrderRef env.now od) } ledger od
          [Event.dbSaveActiveOrder p.planId (mkOrderRef env.now od)] := by
  have hcond : ¬(p.amount < mn ∨ p.amount > min mx (500 : ℚ)) :=
    not_or.mpr ⟨not_lt.mpr hmn, not_lt.mpr hmx⟩
  simp only [processDuePlan, hstep, if_true, afterEligibility, hlim, hcond, if_false,
    afterLimits, hord, hw, hpw, Bool.and_self]

theorem manualExecuteCont_no_insert (env : ManualEnv) (wr : Option String) (p₀ : Plan)
    (ledger : List LedgerRow) (ev₀ : List Event)
    (h : ∀ row, Event.dbInsertLedger row ∉ ev₀) :
    ∀ row, Event.dbInsertLedger row ∉ (manualExecuteCont env wr p₀ ledger ev₀).events := by
  intro row
  unfold manualExecuteCont
  split
  · dsimp only
    split
    · simp [h row]
    · split
      · simp [h row]
      · split
        · simp [h row]
        · simp [h row]
  · split
    · simp [h row]
    · simp [h row]

/-! ### Theorems for the claims -/

/-- Claim C6 (confirmed) — Balance gating: whenever the fund-transfer sequence
observes a token balance below the required amount, or a native balance below
`(approve_gas + transfer_gas) × gas_price × 1.2 / 10^18 × 1.5`, it returns a
failure and performs no chain action: no approve or transfer transaction is
attempted, built, or broadcast (src/auto_send.py lines 120-169). -/
theorem c6_balance_gating (env : SendEnv) (amt : ℚ) (addr : String) (dry : Bool)
    (pk ca : String) (u n : ℚ) (ag tg : Nat) (gp : ℚ)
    (hdec : env.decryptResult = .ok pk) (hchk : env.checksumResult = .ok ca)
    (hbal : env.balanceResult = .ok (u, n)) (hgas : env.gasResult = .ok (ag, tg, gp))
    (hlow : u < amt ∨ n < minNativeRequired ag tg gp) :
    (autoSendBody env amt addr dry).success = false
    ∧ (autoSendBody env amt addr dry).actions = [] := by
  unfold autoSendBody
  rw [hdec, hchk, hbal, hgas]
  by_cases h1 : u < amt
  · simp [h1]
  · rcases hlow with h | h
    · exact absurd h h1
    · simp [h1, h]

/-- Witness for C6 at a concrete input: required 50, USDT balance 10. -/
theorem c6_balance_gating_witness :
    (autoSendBody sendEnvLowUsdt 50 "0xdep" false).success = false
    ∧ (autoSendBody sendEnvLowUsdt 50 "0xdep" false).actions = [] :=
  c6_balance_gating sendEnvLowUsdt 50 "0xdep" false "0xkey" "0xDepositChecksum"
    10 1 50000 60000 1 rfl rfl rfl rfl (Or.inl (by norm_num))

/-- Claim C7 (confirmed) — Approval skip: with sufficient balances and
`dry_run = False`, if the current allowance covers the required amount then no
approval transaction is issued; if it does not, exactly one approval
transaction is issued, it is the first chain action, and any transfer
transaction is issued only after the approval hash was returned and its
receipt awaited with status 1 (src/auto_send.py lines 175-213). -/
theorem c7_approval_skip (env : SendEnv) (amt : ℚ) (addr : String)
    (pk ca : String) (u n : ℚ) (ag tg : Nat) (gp a : ℚ)
    (hdec : env.decryptResult = .ok pk) (hchk : env.checksumResult = .ok ca)
    (hbal : env.balanceResult = .ok (u, n)) (hu : amt ≤ u)
    (hgas : env.gasResult = .ok (ag, tg, gp))
    (hn : minNativeRequired ag tg gp ≤ n)
    (hal : env.allowanceResult = .ok a) :
    (amt ≤ a →
      (autoSendBody env amt addr false).actions.countP ChainAction.isApproveAttempt = 0)
    ∧ (a < amt →
      (autoSendBody env amt addr false).actions.countP ChainAction.isApproveAttempt = 1
      ∧ (autoSendBody env amt addr false).actions.head?
          = some (.approveAttempt ca amt)
      ∧ ∀ x y, ChainAction.transferAttempt x y ∈ (autoSendBody env amt addr false).actions →
          ∃ h, env.approveCall = .ok (some h) ∧ env.approveReceipt = .ok 1
            ∧ (autoSendBody env amt addr false).actions.take 3
                = [.approveAttempt ca amt, .approveAwait h, .transferAttempt ca amt]) := by
  have hbody : autoSendBody env amt addr false
      = match approvePhase env amt ca false a with
        | Sum.inl r => r
        | Sum.inr (approveTx, acts) => transferPhase env amt ca false approveTx acts := by
    simp only [autoSendBody, hdec, hchk, hbal, hgas, hal]
    rw [if_neg (not_lt.mpr hu), if_neg (not_lt.mpr hn)]
  constructor
  · intro hskip
    have hap : approvePhase env amt ca false a = Sum.inr (none, []) := by
      unfold approvePhase
      rw [if_neg (not_lt.mpr hskip)]
    rw [hbody, hap]
    obtain ⟨rest, hacts, hrest, -⟩ := transferPhase_actions env amt ca none []
    simp only [hacts, List.nil_append, List.countP_cons, ChainAction.isApproveAttempt]
    simpa using hrest
  · intro hlt
    rcases approvePhase_spec env amt ca a hlt with ⟨r, happ, hr⟩ | ⟨h, happ, hac, har⟩
    · have hres : autoSendBody env amt addr false = r := by rw [hbody, happ]
      rw [hres]
      rcases hr with hr | ⟨h, hr⟩ <;> rw [hr] <;>
        refine ⟨by simp [List.countP_cons, ChainAction.isApproveAttempt], by simp, ?_⟩ <;>
        · intro x y hmem
          simp at hmem
    · have hres : autoSendBody env amt addr false
          = transferPhase env amt ca false (some h)
              [.approveAttempt ca amt, .approveAwait h] := by rw [hbody, happ]
      obtain ⟨rest, hacts, hrest, hrestT⟩ :=
        transferPhase_actions env amt ca (some h)
          [.approveAttempt ca amt, .approveAwait h]
      rw [hres, hacts]
      refine ⟨?_, by simp, ?_⟩
      · simp only [List.cons_append, List.nil_append, List.countP_cons,
          ChainAction.isApproveAttempt]
        simpa using hrest
      · intro x y hmem
        simp only [List.cons_append, List.nil_append, List.mem_cons] at hmem
        rcases hmem with h1 | h1 | h1 | h1
        · exact absurd h1 (by simp)
        · exact absurd h1 (by simp)
        · injection h1 with hx hy
          subst hx; subst hy
          exact ⟨h, hac, har, by simp [List.take]⟩
        · exfalso
          have := List.countP_eq_zero.mp hrestT _ h1
          simp [ChainAction.isTransferAttempt] at this



/-- Witness for C7 at a concrete input: allowance 0 below required 50, every
chain step succeeding — exactly one approval transaction is attempted. -/
theorem c7_approval_skip_witness :
    (autoSendBody sendEnvOk 50 "0xdep" false).actions.countP
      ChainAction.isApproveAttempt = 1 :=
  ((c7_approval_skip sendEnvOk 50 "0xdep" "0xkey" "0xDepositChecksum" 100 1 50000 60000 1 0
      rfl rfl rfl (by norm_num) rfl (by norm_num [minNativeRequired]) rfl).2
    (by norm_num)).1

/-- Claim C9 (code_bug) — Key scrubbing: the spec requires the decrypted
signing key to be scrubbed on every exit path of the fund-transfer sequence,
but the scrub statements (src/auto_send.py lines 234-235) sit only on the
confirmed-transfer return path.  At this input the key is decrypted
(`keyCreated = true`), the sequence exits through the insufficient-USDT
return (line 124), and no scrub is performed. -/
theorem c9_scrub_missing :
    (autoSendBody sendEnvLowUsdt 50 "0xdep" false).keyCreated = true
    ∧ (autoSendBody sendEnvLowUsdt 50 "0xdep" false).keyScrubbed = false
    ∧ (autoSendBody sendEnvLowUsdt 50 "0xdep" false).success = false := by
  decide

/-- Claim C10 (confirmed) — Arity bug: `auto_send_usdt` calls
`load_keystore(user_id, network_key)` with two positional arguments
(src/auto_send.py line 71) while `load_keystore` accepts one
(src/wallet.py line 61); the TypeError is swallowed by the outermost handler
(lines 243-245), so every invocation returns `success = False` with a message
beginning "Unexpected error:", and no chain action is ever performed. -/
theorem c10_arity_bug (env : SendEnv) (uid : Int) (nk : String) (amt : ℚ)
    (addr : String) (dry : Bool) :
    (autoSendUsdt env uid nk amt addr dry).success = false
    ∧ (∃ rest, (autoSendUsdt env uid nk amt addr dry).errorMessage
        = "Unexpected error: " ++ rest)
    ∧ (autoSendUsdt env uid nk amt addr dry).actions = [] := by
  obtain ⟨e, h⟩ : ∃ e, callLoadKeystore env [.intArg uid, .strArg nk] = .error e :=
    ⟨_, rfl⟩
  unfold autoSendUsdt
  rw [h]
  exact ⟨rfl, ⟨e, rfl⟩, rfl⟩


theorem processDuePlan_send_events (env : TickEnv) (p : Plan) (ledger : List LedgerRow)
    (od : OrderData) (mn mx : ℚ)
    (hstep : step1Proceed env p ledger = true)
    (hlim : env.limits = Except.ok (mn, mx))
    (hmn : mn ≤ p.amount) (hmx : p.amount ≤ min mx 500)
    (hord : env.createOrder = Except.ok od)
    (hw : env.walletConfigured = true) (hpw : env.passwordCached = true) :
    ∃ tail, (processDuePlan env p ledger).events
        = Event.dbSaveActiveOrder p.planId (mkOrderRef env.now od)
          :: Event.dbInsertLedger
              (mkSendingRow env.now { p with activeOrder := some (mkOrderRef env.now od) }
                od (od.depositAmountParsed.getD p.amount))
          :: Event.notify (.planExecutedAutoSending od.orderId)
          :: Event.invokeAutoSend od.orderId (od.depositAmountParsed.getD p.amount)
              od.depositAddress
          :: tail
      ∧ tail.countP Event.isInvoke = 0 ∧ tail.countP Event.isInsert = 0 := by
  rw [processDuePlan_send_reduction env p ledger od mn mx hstep hlim hmn hmx hord hw hpw]
  obtain ⟨tail, hev, h1, h2⟩ := sendPhase_events_shape env
    { p with activeOrder := some (mkOrderRef env.now od) } ledger od
    [Event.dbSaveActiveOrder p.planId (mkOrderRef env.now od)]
  exact ⟨tail, hev, h1, h2⟩

theorem processDuePlan_send_ledger (env : TickEnv) (p : Plan) (ledger : List LedgerRow)
    (od : OrderData) (mn mx : ℚ)
    (hstep : step1Proceed env p ledger = true)
    (hlim : env.limits = Except.ok (mn, mx))
    (hmn : mn ≤ p.amount) (hmx : p.amount ≤ min mx 500)
    (hord : env.createOrder = Except.ok od)
    (hw : env.walletConfigured = true) (hpw : env.passwordCached = true) :
    ∃ f, (∀ r, (f r).orderId = r.orderId ∧ (f r).planId = r.planId)
      ∧ (processDuePlan env p ledger).ledger
          = ledgerUpdateWhere
              (ledger ++ [mkSendingRow env.now
                { p with activeOrder := some (mkOrderRef env.now od) } od
                (od.depositAmountParsed.getD p.amount)])
              od.orderId p.planId f := by
  rw [processDuePlan_send_reduction env p ledger od mn mx hstep hlim hmn hmx hord hw hpw]
  exact sendPhase_ledger_shape env
    { p with activeOrder := some (mkOrderRef env.now od) } ledger od
    [Event.dbSaveActiveOrder p.planId (mkOrderRef env.now od)]

theorem processDuePlan_returned_failure (env : TickEnv) (p : Plan)
    (ledger : List LedgerRow) (od : OrderData) (mn mx : ℚ)
    (aTx tTx : Option String) (e : String)
    (hstep : step1Proceed env p ledger = true)
    (hlim : env.limits = Except.ok (mn, mx))
    (hmn : mn ≤ p.amount) (hmx : p.amount ≤ min mx 500)
    (hord : env.createOrder = Except.ok od)
    (hw : env.walletConfigured = true) (hpw : env.passwordCached = true)
    (hout : env.sendOutcome = SendCallOutcome.returned false aTx tTx e) :
    (processDuePlan env p ledger).ledger
      = ledgerUpdateWhere
          (ledger ++ [mkSendingRow env.now
            { p with activeOrder := some (mkOrderRef env.now od) } od
            (od.depositAmountParsed.getD p.amount)])
          od.orderId p.planId
          (fun r => { r with
            state := if isRetryable e = true then TxState.blocked else TxState.failed,
            errorMessage := some (pyTake e 500) })
    ∧ (processDuePlan env p ledger).plan.nextRun
        = (if isRetryable e = true then p.nextRun
            else env.now + (p.intervalHours : Int) * 3600)
    ∧ notificationsAfter (processDuePlan env p ledger).events
        = [if isRetryable e = true
            then Notification.blockedWillRetry od.orderId (pyTake e 200) p.intervalHours
            else Notification.failedManualSend od.orderId e
              (od.depositAmountParsed.getD p.amount) od.depositAddress] := by
  rw [processDuePlan_send_reduction env p ledger od mn mx hstep hlim hmn hmx hord hw hpw]
  unfold sendPhase
  rw [hout]
  by_cases hr : isRetryable e = true
  · simp [hr, notificationsAfter, Event.isInvoke]
  · simp [hr, notificationsAfter, Event.isInvoke]

theorem processDuePlan_raised_ledger (env : TickEnv) (p : Plan)
    (ledger : List LedgerRow) (od : OrderData) (mn mx : ℚ) (e : String)
    (hstep : step1Proceed env p ledger = true)
    (hlim : env.limits = Except.ok (mn, mx))
    (hmn : mn ≤ p.amount) (hmx : p.amount ≤ min mx 500)
    (hord : env.createOrder = Except.ok od)
    (hw : env.walletConfigured = true) (hpw : env.passwordCached = true)
    (hout : env.sendOutcome = SendCallOutcome.raised e) :
    (processDuePlan env p ledger).ledger
      = ledgerUpdateWhere
          (ledger ++ [mkSendingRow env.now
            { p with activeOrder := some (mkOrderRef env.now od) } od
            (od.depositAmountParsed.getD p.amount)])
          od.orderId p.planId
          (fun r => { r with
            state := if isRetryable e = true then TxState.blocked else TxState.failed,
            errorMessage := some (pyTake e 500) }) := by
  rw [processDuePlan_send_reduction env p ledger od mn mx hstep hlim hmn hmx hord hw hpw]
  unfold sendPhase
  rw [hout]
  by_cases hr : isRetryable e = true
  · simp [hr]
  · simp [hr]

/-- Claim C2 (confirmed) — Write-ahead ordering: for a due plan that passes the
eligibility check and the limits check, with the order created, a configured
wallet and a cached password, the scheduler iteration emits the insert-and-
commit of a `'sending'` Ledger row for the new order strictly before the
single `auto_send_usdt` invocation (src/bot.py lines 674-700), so a crash
mid-transfer is detectable from persisted state. -/
theorem c2_write_ahead (env : TickEnv) (p : Plan) (ledger : List LedgerRow)
    (od : OrderData) (mn mx : ℚ)
    (hO : p.activeOrder = none)
    (hlim : env.limits = Except.ok (mn, mx))
    (hmn : mn ≤ p.amount) (hmx : p.amount ≤ min mx 500)
    (hord : env.createOrder = Except.ok od)
    (hw : env.walletConfigured = true) (hpw : env.passwordCached = true) :
    ∃ pre post row,
      (processDuePlan env p ledger).events
          = pre ++ Event.invokeAutoSend od.orderId
              (od.depositAmountParsed.getD p.amount) od.depositAddress :: post
      ∧ Event.dbInsertLedger row ∈ pre
      ∧ row.state = TxState.sending ∧ row.orderId = od.orderId ∧ row.planId = p.planId
      ∧ row.sentAt = some env.now
      ∧ pre.countP Event.isInvoke = 0 ∧ post.countP Event.isInvoke = 0 := by
  have hstep : step1Proceed env p ledger = true := by simp [step1Proceed, hO]
  obtain ⟨tail, hev, hinv, hins⟩ :=
    processDuePlan_send_events env p ledger od mn mx hstep hlim hmn hmx hord hw hpw
  refine ⟨[Event.dbSaveActiveOrder p.planId (mkOrderRef env.now od),
      Event.dbInsertLedger
        (mkSendingRow env.now { p with activeOrder := some (mkOrderRef env.now od) }
          od (od.depositAmountParsed.getD p.amount)),
      Event.notify (.planExecutedAutoSending od.orderId)], tail,
    mkSendingRow env.now { p with activeOrder := some (mkOrderRef env.now od) }
      od (od.depositAmountParsed.getD p.amount),
    ?_, by simp, rfl, rfl, rfl, rfl, ?_, hinv⟩
  · rw [hev]
    rfl
  · simp [Event.isInvoke, List.countP_cons]

/-- Witness for C2 at a concrete input (fresh plan, order ORD1 created,
wallet and password present). -/
theorem c2_write_ahead_witness :
    ∃ pre post row,
      (processDuePlan envC2 planC1 []).events
          = pre ++ Event.invokeAutoSend odC1a.orderId
              (odC1a.depositAmountParsed.getD planC1.amount) odC1a.depositAddress :: post
      ∧ Event.dbInsertLedger row ∈ pre
      ∧ row.state = TxState.sending ∧ row.orderId = odC1a.orderId
      ∧ row.planId = planC1.planId
      ∧ row.sentAt = some envC2.now
      ∧ pre.countP Event.isInvoke = 0 ∧ post.countP Event.isInvoke = 0 :=
  c2_write_ahead envC2 planC1 [] odC1a 10 500 rfl rfl (by decide) (by decide) rfl rfl rfl


/-- Claim C3 (confirmed) — Failure classification: when the transfer step of a
reached send phase fails with error text `e` — either `auto_send_usdt`
returning failure or raising — the Ledger row of the attempt ends in state
`'blocked'` iff the lowercased text contains one of the substrings "timeout",
"connection", "rpc", "5xx", "unavailable", "failed to connect", and in state
`'failed'` otherwise (src/bot.py lines 707-708 and 795-796). -/
theorem c3_failure_classification (env : TickEnv) (p : Plan)
    (ledger : List LedgerRow) (od : OrderData) (mn mx : ℚ)
    (aTx tTx : Option String) (e : String)
    (hO : p.activeOrder = none)
    (hlim : env.limits = Except.ok (mn, mx))
    (hmn : mn ≤ p.amount) (hmx : p.amount ≤ min mx 500)
    (hord : env.createOrder = Except.ok od)
    (hw : env.walletConfigured = true) (hpw : env.passwordCached = true)
    (hout : env.sendOutcome = SendCallOutcome.returned false aTx tTx e
      ∨ env.sendOutcome = SendCallOutcome.raised e)
    (hfresh : ∀ r ∈ ledger, r.orderId ≠ od.orderId) :
    ∃ r, ledgerFind (processDuePlan env p ledger).ledger od.orderId p.planId = some r
      ∧ (r.state = TxState.blocked
          ↔ ∃ k ∈ transientKeywords, k.toList <:+: (pyLower e).toList)
      ∧ (r.state = TxState.failed
          ↔ ¬∃ k ∈ transientKeywords, k.toList <:+: (pyLower e).toList) := by
  have hstep : step1Proceed env p ledger = true := by simp [step1Proceed, hO]
  have hled : (processDuePlan env p ledger).ledger
      = ledgerUpdateWhere
          (ledger ++ [mkSendingRow env.now
            { p with activeOrder := some (mkOrderRef env.now od) } od
            (od.depositAmountParsed.getD p.amount)])
          od.orderId p.planId
          (fun r => { r with
            state := if isRetryable e = true then TxState.blocked else TxState.failed,
            errorMessage := some (pyTake e 500) }) := by
    rcases hout with hout | hout
    · exact (processDuePlan_returned_failure env p ledger od mn mx aTx tTx e
        hstep hlim hmn hmx hord hw hpw hout).1
    · exact processDuePlan_raised_ledger env p ledger od mn mx e
        hstep hlim hmn hmx hord hw hpw hout
  rw [hled, ledgerFind_updateWhere_append od.orderId p.planId
    (fun r => { r with
      state := if isRetryable e = true then TxState.blocked else TxState.failed,
      errorMessage := some (pyTake e 500) })
    (fun r => ⟨rfl, rfl⟩)
    (mkSendingRow env.now { p with activeOrder := some (mkOrderRef env.now od) } od
      (od.depositAmountParsed.getD p.amount)) rfl rfl ledger hfresh]
  refine Exists.intro _ (And.intro rfl (And.intro ?_ ?_))
  · show (if isRetryable e = true then TxState.blocked else TxState.failed)
        = TxState.blocked ↔ ∃ k ∈ transientKeywords, k.toList <:+: (pyLower e).toList
    by_cases hr : isRetryable e = true
    · rw [if_pos hr]
      exact iff_of_true rfl ((isRetryable_iff e).mp hr)
    · rw [if_neg hr]
      exact iff_of_false (by simp) fun hcon => hr ((isRetryable_iff e).mpr hcon)
  · show (if isRetryable e = true then TxState.blocked else TxState.failed)
        = TxState.failed ↔ ¬∃ k ∈ transientKeywords, k.toList <:+: (pyLower e).toList
    by_cases hr : isRetryable e = true
    · rw [if_pos hr]
      exact iff_of_false (by simp) fun hcon => hcon ((isRetryable_iff e).mp hr)
    · rw [if_neg hr]
      exact iff_of_true rfl fun hcon => hr ((isRetryable_iff e).mpr hcon)

/-- Witness for C3 at a concrete input: the send returns failure with error
"connection timeout". -/
theorem c3_failure_classification_witness :
    ∃ r, ledgerFind (processDuePlan envC2 planC1 []).ledger odC1a.orderId planC1.planId
        = some r
      ∧ (r.state = TxState.blocked
          ↔ ∃ k ∈ transientKeywords, k.toList <:+: (pyLower "connection timeout").toList)
      ∧ (r.state = TxState.failed
          ↔ ¬∃ k ∈ transientKeywords, k.toList <:+: (pyLower "connection timeout").toList) :=
  c3_failure_classification envC2 planC1 [] odC1a 10 500 none none "connection timeout"
    rfl rfl (by decide) (by decide) rfl rfl rfl (Or.inl rfl) (by simp)

/-- Claim C4 (confirmed) — Outcome-dependent state and schedule update: when
the transfer step returns a transient failure, the attempt row becomes
`'blocked'`, `next_run` is unchanged, and exactly one notification (the
blocked notice) is emitted after the invocation; when it returns a permanent
failure, the row becomes `'failed'`, `next_run` advances by one interval from
now, and the single notification instructs a manual send carrying the exact
required amount and deposit address (src/bot.py lines 793-843). -/
theorem c4_outcome_update (env : TickEnv) (p : Plan)
    (ledger : List LedgerRow) (od : OrderData) (mn mx : ℚ)
    (aTx tTx : Option String) (e : String)
    (hO : p.activeOrder = none)
    (hlim : env.limits = Except.ok (mn, mx))
    (hmn : mn ≤ p.amount) (hmx : p.amount ≤ min mx 500)
    (hord : env.createOrder = Except.ok od)
    (hw : env.walletConfigured = true) (hpw : env.passwordCached = true)
    (hout : env.sendOutcome = SendCallOutcome.returned false aTx tTx e)
    (hfresh : ∀ r ∈ ledger, r.orderId ≠ od.orderId) :
    (isRetryable e = true →
      (∃ r, ledgerFind (processDuePlan env p ledger).ledger od.orderId p.planId = some r
          ∧ r.state = TxState.blocked)
      ∧ (processDuePlan env p ledger).plan.nextRun = p.nextRun
      ∧ notificationsAfter (processDuePlan env p ledger).events
          = [Notification.blockedWillRetry od.orderId (pyTake e 200) p.intervalHours])
    ∧ (isRetryable e = false →
      (∃ r, ledgerFind (processDuePlan env p ledger).ledger od.orderId p.planId = some r
          ∧ r.state = TxState.failed)
      ∧ (processDuePlan env p ledger).plan.nextRun
          = env.now + (p.intervalHours : Int) * 3600
      ∧ notificationsAfter (processDuePlan env p ledger).events
          = [Notification.failedManualSend od.orderId e
              (od.depositAmountParsed.getD p.amount) od.depositAddress]) := by
  have hstep : step1Proceed env p ledger = true := by simp [step1Proceed, hO]
  obtain ⟨hled, hplan, hnotif⟩ := processDuePlan_returned_failure env p ledger od mn mx
    aTx tTx e hstep hlim hmn hmx hord hw hpw hout
  have hfind := ledgerFind_updateWhere_append od.orderId p.planId
    (fun r => { r with
      state := if isRetryable e = true then TxState.blocked else TxState.failed,
      errorMessage := some (pyTake e 500) })
    (fun r => ⟨rfl, rfl⟩)
    (mkSendingRow env.now { p with activeOrder := some (mkOrderRef env.now od) } od
      (od.depositAmountParsed.getD p.amount)) rfl rfl ledger hfresh
  constructor
  · intro hr
    refine ⟨⟨_, by rw [hled]; exact hfind, by simp [hr]⟩, ?_, ?_⟩
    · rw [hplan]; simp [hr]
    · rw [hnotif]; simp [hr]
  · intro hr
    refine ⟨⟨_, by rw [hled]; exact hfind, by simp [hr]⟩, ?_, ?_⟩
    · rw [hplan]; simp [hr]
    · rw [hnotif]; simp [hr]

/-- Witness for C4 at concrete inputs: scenario B ("connection timeout" is
transient, schedule unchanged) and scenario C ("Transfer failed: execution
reverted" is permanent, schedule advanced by one interval from now). -/
theorem c4_outcome_update_witness :
    (processDuePlan envC2 planC1 []).plan.nextRun = planC1.nextRun
    ∧ (processDuePlan envC4perm planC1 []).plan.nextRun
        = envC4perm.now + (planC1.intervalHours : Int) * 3600 :=
  ⟨((c4_outcome_update envC2 planC1 [] odC1a 10 500 none none "connection timeout"
      rfl rfl (by decide) (by decide) rfl rfl rfl rfl (by simp)).1 (by decide)).2.1,
    ((c4_outcome_update envC4perm planC1 [] odC1a 10 500 none none
      "Transfer failed: execution reverted"
      rfl rfl (by decide) (by decide) rfl rfl rfl rfl (by simp)).2 (by decide)).2.1⟩

/-- Claim C5 (confirmed) — Retry gating: a plan whose active unexpired order
has a `'blocked'` Ledger row is skipped (no state change, no events) while
`now - sent_at < interval_hours × 3600`, and once the interval has elapsed the
iteration starts exactly one new execution attempt: one `auto_send_usdt`
invocation and one new Ledger row (src/bot.py lines 551-564). -/
theorem c5_retry_gating (env : TickEnv) (p : Plan) (ledger : List LedgerRow)
    (o : OrderRef) (row : LedgerRow) (t : Int) (od : OrderData) (mn mx : ℚ)
    (hO : p.activeOrder = some o)
    (hguard : (o.orderId != "" && o.expires != 0 && decide (o.expires > env.now)) = true)
    (hfind : ledgerFind ledger o.orderId p.planId = some row)
    (hstate : row.state = TxState.blocked)
    (hsent : row.sentAt = some t) (ht : t ≠ 0)
    (hlim : env.limits = Except.ok (mn, mx))
    (hmn : mn ≤ p.amount) (hmx : p.amount ≤ min mx 500)
    (hord : env.createOrder = Except.ok od)
    (hw : env.walletConfigured = true) (hpw : env.passwordCached = true) :
    (env.now - t < (p.intervalHours : Int) * 3600 →
      processDuePlan env p ledger = ⟨p, ledger, []⟩)
    ∧ ((p.intervalHours : Int) * 3600 ≤ env.now - t →
      (processDuePlan env p ledger).events.countP Event.isInvoke = 1
      ∧ (processDuePlan env p ledger).events.countP Event.isInsert = 1
      ∧ (processDuePlan env p ledger).ledger.length = ledger.length + 1) := by
  have hstepEq : step1Proceed env p ledger
      = decide ((p.intervalHours : Int) * 3600 ≤ env.now - t) := by
    simp [step1Proceed, hO, hguard, hfind, hstate, hsent, pyOrElse, ht]
  constructor
  · intro hlt
    have hfalse : step1Proceed env p ledger = false := by
      rw [hstepEq]
      exact decide_eq_false (not_le.mpr hlt)
    simp [processDuePlan, hfalse]
  · intro hge
    have hstep : step1Proceed env p ledger = true := by
      rw [hstepEq]
      exact decide_eq_true hge
    obtain ⟨tail, hev, hinv, hins⟩ :=
      processDuePlan_send_events env p ledger od mn mx hstep hlim hmn hmx hord hw hpw
    obtain ⟨f, hf, hled⟩ :=
      processDuePlan_send_ledger env p ledger od mn mx hstep hlim hmn hmx hord hw hpw
    refine ⟨?_, ?_, ?_⟩
    · rw [hev]
      simp [Event.isInvoke, List.countP_cons, hinv]
    · rw [hev]
      simp [Event.isInsert, List.countP_cons, hins]
    · rw [hled]
      simp [ledgerUpdateWhere, List.length_map, List.length_append]

/-- Witness for C5 at a concrete input: the blocked attempt from the first
tick is retried exactly once when the 12-hour interval has elapsed. -/
theorem c5_retry_gating_witness :
    (processDuePlan envC1b tickC1a.plan tickC1a.ledger).events.countP Event.isInvoke = 1 :=
  ((c5_retry_gating envC1b tickC1a.plan tickC1a.ledger
      ⟨"ORD1", "0xdead1", "50 USDTARBITRUM", 201000⟩
      ⟨7, 1, "ORD1", "USDT-ARB", none, none, 50, "0xdead1", TxState.blocked,
        some "connection timeout", some 1000⟩
      1000 odC1b 10 500
      (by decide) (by decide) (by decide) (by decide) (by decide) (by decide)
      rfl (by decide) (by decide) rfl rfl rfl).2 (by decide)).1


/-- Claim C1 counterexample — the per-plan form of the mutual-exclusion
invariant fails on the code: starting from a due plan with no Ledger rows,
one tick creates order ORD1, inserts its `'sending'` row and blocks it on a
transient failure; a second tick one full DCA interval later retries the
blocked attempt by creating order ORD2 and inserting a new row, while the
superseded ORD1 row is never updated (the `UPDATE ... WHERE order_id = ?`
statements of src/bot.py lines 713, 731, 756, 801, 819 target only the new
order id).  After the second tick the plan has two Ledger rows in
{sending, blocked} at once. -/
theorem c1_counterexample :
    duePlan envC1a.now planC1 = true
    ∧ duePlan envC1b.now tickC1a.plan = true
    ∧ openRowCount 1 tickC1a.ledger = 1
    ∧ openRowCount 1 tickC1b.ledger = 2 := by
  decide

/-- Claim C1 (corrected) — what the code does guarantee: (a) one scheduler
iteration preserves "at most one Ledger row per (plan, remote order)",
provided the created order id is fresh; (b) the manual-execute path skips any
plan holding an unexpired active order; (c) the manual-execute path never
inserts a Ledger row at all (its only INSERT, src/bot.py line 1397, sits in
an unreachable branch and would use the default `'scheduled'` state), so it
never creates a row in {sending, blocked}. -/
theorem c1_amended_exclusion :
    (∀ env p ledger,
        (∀ oid pid, keyCount oid pid ledger ≤ 1) →
        (∀ od, env.createOrder = Except.ok od → keyCount od.orderId p.planId ledger = 0) →
        ∀ oid pid, keyCount oid pid (processDuePlan env p ledger).ledger ≤ 1)
    ∧ (∀ env wr p ledger o,
        p.activeOrder = some o →
        (o.orderId != "" && o.expires != 0 && decide (o.expires > env.now)) = true →
        manualExecute env wr p ledger
          = ⟨p, ledger, [Event.notifyM (.activeOrderExists o.orderId)]⟩)
    ∧ (∀ env wr p ledger row,
        Event.dbInsertLedger row ∉ (manualExecute env wr p ledger).events) := by
  refine ⟨?_, ?_, ?_⟩
  · intro env p ledger huniq hfresh oid pid
    rcases processDuePlan_ledger_shape env p ledger with h | ⟨od, row, f, hod, hro, hrp, hf, h⟩
    · rw [h]
      exact huniq oid pid
    · rw [h, keyCount_updateWhere oid pid _ _ f hf, keyCount_append, keyCount_singleton]
      by_cases hk : (row.orderId == oid && row.planId == pid) = true
      · rw [if_pos hk]
        have hk2 : row.orderId = oid ∧ row.planId = pid := by
          simpa using hk
      
        have e1 : oid = od.orderId := by rw [← hk2.1, hro]
        have e2 : pid = p.planId := by rw [← hk2.2, hrp]
        subst e1
        subst e2
        rw [hfresh od hod]
      · rw [if_neg hk]
        simpa using huniq oid pid
  · intro env wr p ledger o hO hguard
    simp [manualExecute, hO, hguard]
  · intro env wr p ledger row
    unfold manualExecute
    split
    · split
      · simp
      · split
        · exact manualExecuteCont_no_insert env wr { p with activeOrder := none } ledger
            [Event.dbClearActiveOrder p.planId] (fun r => by simp) row
        · exact manualExecuteCont_no_insert env wr p ledger [] (fun r => by simp) row
    · exact manualExecuteCont_no_insert env wr p ledger [] (fun r => by simp) row

/-- Witness for the C1 amended theorem: the per-(plan, order) bound holds
after a concrete first tick from an empty ledger, and the manual path skips a
concrete plan with an unexpired order. -/
theorem c1_amended_exclusion_witness :
    keyCount "ORD1" 1 (processDuePlan envC1a planC1 []).ledger ≤ 1
    ∧ manualExecute manEnvW none planManualW []
        = ⟨planManualW, [], [Event.notifyM (.activeOrderExists "ORDW")]⟩ :=
  ⟨c1_amended_exclusion.1 envC1a planC1 [] (fun _ _ => Nat.zero_le 1)
      (fun _ _ => rfl) "ORD1" 1,
    c1_amended_exclusion.2.1 manEnvW none planManualW []
      ⟨"ORDW", "0xdeadW", "50.0 USDTARBITRUM", 99999⟩ rfl (by decide)⟩

/-- Claim C8 counterexample — after soft-deleting a plan that still holds the
unexpired order ORD1, creating a plan with identical
(network, amount, interval, destination) is NOT rejected: `/setdca` creates
the plan and inherits the preserved order reference
(src/bot.py lines 2239-2247). -/
theorem c8_counterexample :
    planC8deleted.deleted = true
    ∧ (2000 : Int) < 99999
    ∧ (cmdSetdcaDb 2000 [planC8deleted] 2 7 "USDT-ARB" 50 24 "bc1qw508d6qejxtdg4y5r3zarvary0c5xw7kv8f3t4").1
        = SetdcaOutcome.createdInheriting ⟨"ORD1", "0xdead1", "50.5 USDTARBITRUM", 99999⟩ := by
  decide

/-- Claim C8 (corrected) — Soft-delete with live order: deleting a plan with
an unexpired order marks it deleted (not removed) and preserves the order
reference; re-creating an identical (network, amount, interval, destination)
plan before the order expires succeeds and inherits the preserved reference
(so it cannot race the still-active order), and with a different destination
it is created without inheriting (src/bot.py lines 1753-1785, 2207-2254). -/
theorem c8_amended_soft_delete (now now2 : Int) (p : Plan) (o : OrderRef) (newId : Nat)
    (b : String)
    (hO : p.activeOrder = some o) (hid : o.orderId ≠ "") (hexp0 : o.expires ≠ 0)
    (hexp : o.expires > now) (hexp2 : o.expires > now2) :
    (cmdDelete now p).1.deleted = true
    ∧ (cmdDelete now p).1.active = false
    ∧ (cmdDelete now p).1.activeOrder = some o
    ∧ (cmdDelete now p).2 = DeleteOutcome.softDeletedWithOrder o
    ∧ (cmdSetdcaDb now2 [(cmdDelete now p).1] newId p.userId p.fromAsset p.amount
          p.intervalHours p.btcAddress).1 = SetdcaOutcome.createdInheriting o
    ∧ (b ≠ p.btcAddress →
        (cmdSetdcaDb now2 [(cmdDelete now p).1] newId p.userId p.fromAsset p.amount
            p.intervalHours b).1 = SetdcaOutcome.createdFresh) := by
  have hdel : cmdDelete now p
      = ({ p with deleted := true, active := false }, DeleteOutcome.softDeletedWithOrder o) := by
    simp [cmdDelete, hO, hid, hexp0, hexp]
  rw [hdel]
  refine ⟨rfl, rfl, by simp [hO], rfl, ?_, ?_⟩
  · simp [cmdSetdcaDb, maxByExpires, hO, hexp0, hexp2, not_lt.mpr (le_of_lt hexp2)]
  · intro hb
    simp [cmdSetdcaDb, maxByExpires, hO, hexp0, hexp2, bne_iff_ne, Ne.symm hb,
      not_lt.mpr (le_of_lt hexp2)]

/-- Witness for the C8 amended theorem at a concrete input. -/
theorem c8_amended_soft_delete_witness :
    (cmdDelete 2000 planC8live).1.deleted = true
    ∧ (cmdDelete 2000 planC8live).1.active = false
    ∧ (cmdDelete 2000 planC8live).1.activeOrder
        = some ⟨"ORD1", "0xdead1", "50.5 USDTARBITRUM", 99999⟩
    ∧ (cmdDelete 2000 planC8live).2
        = DeleteOutcome.softDeletedWithOrder ⟨"ORD1", "0xdead1", "50.5 USDTARBITRUM", 99999⟩
    ∧ (cmdSetdcaDb 3000 [(cmdDelete 2000 planC8live).1] 2 planC8live.userId
          planC8live.fromAsset planC8live.amount planC8live.intervalHours
          planC8live.btcAddress).1
        = SetdcaOutcome.createdInheriting ⟨"ORD1", "0xdead1", "50.5 USDTARBITRUM", 99999⟩
    ∧ ("bc1qqqqqqqqqqqqqqqqqqqqqqqqqqqqqqqqqqqqqqq" ≠ planC8live.btcAddress →
        (cmdSetdcaDb 3000 [(cmdDelete 2000 planC8live).1] 2 planC8live.userId
            planC8live.fromAsset planC8live.amount planC8live.intervalHours
            "bc1qqqqqqqqqqqqqqqqqqqqqqqqqqqqqqqqqqqqqqq").1 = SetdcaOutcome.createdFresh) :=
  c8_amended_soft_delete 2000 3000 planC8live
    ⟨"ORD1", "0xdead1", "50.5 USDTARBITRUM", 99999⟩ 2 "bc1qqqqqqqqqqqqqqqqqqqqqqqqqqqqqqqqqqqqqqq"
    rfl (by decide) (by decide) (by decide) (by decide)

end AutoDCA
